import Mathlib

/-!
Verification development for the Matter_Gateway repository: a shallow
embedding of the device layer (devices/*.py), the registry
(core/gateway.py), the persistence store (core/persistence.py), the
websocket fan-out (api/websocket_api.py) and the upstream request client
(core/larnitech_client.py), together with theorems settling the frozen
claims about them.
-/

/-- Dynamically-typed Python values as they reach `write_state` (from JSON
payloads or local callers): booleans, integers, floats (modelled as
rationals), strings and `None`. -/
inductive Value where
  | vBool : Bool → Value
  | vInt : Int → Value
  | vFloat : Rat → Value
  | vStr : String → Value
  | vNone : Value
deriving DecidableEq, Repr

/-- Value of a string of decimal digits; `none` when the list is empty or
holds a non-digit (models the failure of Python `int()` on such strings). -/
def digitsVal : List Char → Option Nat
  | [] => none
  | cs => cs.foldl
      (fun acc c => acc.bind (fun n =>
        if c.isDigit then some (10 * n + (c.toNat - 48)) else none))
      (some 0)

/-- Strip leading and trailing whitespace from a character list (the
effect of Python's `str.strip` as used by `int()`/`float()`). -/
def trimChars (cs : List Char) : List Char :=
  ((cs.dropWhile Char.isWhitespace).reverse.dropWhile Char.isWhitespace).reverse

/-- ASCII lowercase of a string (the effect of Python's `str.lower` on the
ASCII mode names the thermostat handles). -/
def strLower (s : String) : String := ⟨s.data.map Char.toLower⟩

/-- Python `int(string)`: optional surrounding whitespace, optional sign,
then decimal digits; anything else raises (here: `none`). -/
def pyStrToInt (s : String) : Option Int :=
  match trimChars s.data with
  | '-' :: rest => (digitsVal rest).map (fun n => -(n : Int))
  | '+' :: rest => (digitsVal rest).map (fun n => (n : Int))
  | cs => (digitsVal cs).map (fun n => (n : Int))

/-- Truncation of a rational toward zero, as Python `int(float)` does. -/
def ratTrunc (q : Rat) : Int := q.num.tdiv (q.den : Int)

/-- Python `int(value)` on a dynamic value: bools are ints (subclass),
floats truncate toward zero, strings must parse as decimal integers;
everything else raises (`none`). -/
def pyInt : Value → Option Int
  | .vBool b => some (if b then 1 else 0)
  | .vInt n => some n
  | .vFloat q => some (ratTrunc q)
  | .vStr s => pyStrToInt s
  | .vNone => none

/-- Python `float(string)`: optional whitespace and sign, digits with an
optional single decimal point (a simplification of the full grammar that
covers every value the gateway handles). -/
def pyStrToRat (s : String) : Option Rat :=
  let parseDigits : List Char → Option Rat := fun cs =>
    match cs.span Char.isDigit with
    | (intPart, rest) =>
      match rest with
      | [] => (digitsVal intPart).map (fun n => (n : Rat))
      | '.' :: fracPart =>
        if fracPart.all Char.isDigit ∧ (intPart ≠ [] ∨ fracPart ≠ []) then
          let ip : Nat := ((digitsVal intPart).getD 0)
          let fp : Nat := ((digitsVal fracPart).getD 0)
          some ((ip : Rat) + (fp : Rat) / ((10 : Rat) ^ fracPart.length))
        else none
      | _ => none
  match trimChars s.data with
  | '-' :: rest => (parseDigits rest).map (fun q => -q)
  | '+' :: rest => parseDigits rest
  | cs => parseDigits cs

/-- Python `float(value)`: bools become `1.0`/`0.0`, ints widen, strings
must parse; `None` raises (`none`). -/
def pyFloat : Value → Option Rat
  | .vBool b => some (if b then 1 else 0)
  | .vInt n => some (n : Rat)
  | .vFloat q => some q
  | .vStr s => pyStrToRat s
  | .vNone => none

/-! ## Device state records, from devices/*.py -/

/-- State of `OnOffLamp` (devices/onoff_lamp.py): `{"power": bool}`. -/
structure LampState where
  power : Bool
deriving DecidableEq, Repr

/-- State of `Dimmer` (devices/dimmer.py):
`{"power": bool, "brightness": int (0-100)}`. -/
structure DimmerState where
  power : Bool
  brightness : Int
deriving DecidableEq, Repr

/-- State of `Thermostat` (devices/thermostat.py):
`{"mode": str, "setpoint": int}`. -/
structure ThermoState where
  mode : String
  setpoint : Int
deriving DecidableEq, Repr

/-- State of `TemperatureSensor` (devices/temperature_sensor.py). -/
structure TempState where
  temperature : Rat
deriving DecidableEq, Repr

/-- State of `HumiditySensor` (devices/humidity_sensor.py). -/
structure HumState where
  humidity : Rat
deriving DecidableEq, Repr

/-- State of `LightSensor` (devices/light_sensor.py). -/
structure LightState where
  lux : Rat
deriving DecidableEq, Repr

/-- State of `LeakSensor` (devices/leak_sensor.py). -/
structure LeakState where
  leak : Bool
deriving DecidableEq, Repr

/-! ## write_state / read_state, one per device kind.
Each returns `(success, new state)`; Python mutates `self.state` in place,
which the embedding renders as state passing. -/

/-- `OnOffLamp.write_state`: accepts only `power` with an exact boolean. -/
def OnOffLamp.write_state (s : LampState) (attr : String) (value : Value) :
    Bool × LampState :=
  if attr = "power" then
    match value with
    | .vBool b => (true, ⟨b⟩)
    | _ => (false, s)
  else (false, s)

/-- `OnOffLamp.read_state`: returns `self.state` (the very dict, no copy —
see the heap model below for the aliasing consequences). -/
def OnOffLamp.read_state (s : LampState) : List (String × Value) :=
  [("power", .vBool s.power)]

/-- `Dimmer.write_state`: `power` takes an exact boolean (turning off keeps
brightness); `brightness` rejects bools, then coerces via `int(value)`
(so numeric strings are accepted and floats truncate), and requires
`0 <= brightness <= 100`; brightness > 0 also forces `power = true`. -/
def Dimmer.write_state (s : DimmerState) (attr : String) (value : Value) :
    Bool × DimmerState :=
  if attr = "power" then
    match value with
    | .vBool b => (true, { s with power := b })
    | _ => (false, s)
  else if attr = "brightness" then
    match value with
    | .vBool _ => (false, s)
    | v =>
      match pyInt v with
      | none => (false, s)
      | some brightness =>
        if 0 ≤ brightness ∧ brightness ≤ 100 then
          (true, { power := if brightness > 0 then true else s.power,
                   brightness := brightness })
        else (false, s)
  else (false, s)

/-- `Dimmer.read_state`: returns `dict(self.state)` (a copy). -/
def Dimmer.read_state (s : DimmerState) : List (String × Value) :=
  [("power", .vBool s.power), ("brightness", .vInt s.brightness)]

/-- `Thermostat.write_state`: `mode` takes a string whose lowercase form is
in \x7bheat, cool, auto\x7d and stores the lowercase form; `setpoint`
coerces via `int(value)` and requires `10 <= setpoint <= 30`. -/
def Thermostat.write_state (s : ThermoState) (attr : String) (value : Value) :
    Bool × ThermoState :=
  if attr = "mode" then
    match value with
    | .vStr v =>
      if (strLower v) = "heat" ∨ (strLower v) = "cool" ∨ (strLower v) = "auto" then
        (true, { s with mode := (strLower v) })
      else (false, s)
    | _ => (false, s)
  else if attr = "setpoint" then
    match pyInt value with
    | none => (false, s)
    | some t =>
      if 10 ≤ t ∧ t ≤ 30 then (true, { s with setpoint := t })
      else (false, s)
  else (false, s)

/-- `Thermostat.read_state`: returns `dict(self.state)`. -/
def Thermostat.read_state (s : ThermoState) : List (String × Value) :=
  [("mode", .vStr s.mode), ("setpoint", .vInt s.setpoint)]

/-- `TemperatureSensor.write_state`: `temperature` coerces via
`float(value)` with no range restriction. -/
def TemperatureSensor.write_state (s : TempState) (attr : String)
    (value : Value) : Bool × TempState :=
  if attr = "temperature" then
    match pyFloat value with
    | none => (false, s)
    | some val => (true, ⟨val⟩)
  else (false, s)

/-- `TemperatureSensor.read_state`: returns `dict(self.state)`. -/
def TemperatureSensor.read_state (s : TempState) : List (String × Value) :=
  [("temperature", .vFloat s.temperature)]

/-- `HumiditySensor.write_state`: `humidity` coerces via `float(value)` and
requires `0.0 <= value <= 100.0`. -/
def HumiditySensor.write_state (s : HumState) (attr : String) (value : Value) :
    Bool × HumState :=
  if attr = "humidity" then
    match pyFloat value with
    | none => (false, s)
    | some val =>
      if 0 ≤ val ∧ val ≤ 100 then (true, ⟨val⟩) else (false, s)
  else (false, s)

/-- `HumiditySensor.read_state`: returns `dict(self.state)`. -/
def HumiditySensor.read_state (s : HumState) : List (String × Value) :=
  [("humidity", .vFloat s.humidity)]

/-- `LightSensor.write_state`: `lux` coerces via `float(value)` and
requires `0 <= value <= 10000`. -/
def LightSensor.write_state (s : LightState) (attr : String) (value : Value) :
    Bool × LightState :=
  if attr = "lux" then
    match pyFloat value with
    | none => (false, s)
    | some val =>
      if 0 ≤ val ∧ val ≤ 10000 then (true, ⟨val⟩) else (false, s)
  else (false, s)

/-- `LightSensor.read_state`: returns `dict(self.state)`. -/
def LightSensor.read_state (s : LightState) : List (String × Value) :=
  [("lux", .vFloat s.lux)]

/-- `LeakSensor.write_state`: accepts only `leak` with an exact boolean. -/
def LeakSensor.write_state (s : LeakState) (attr : String) (value : Value) :
    Bool × LeakState :=
  if attr = "leak" then
    match value with
    | .vBool b => (true, ⟨b⟩)
    | _ => (false, s)
  else (false, s)

/-- `LeakSensor.read_state`: returns `dict(self.state)`. -/
def LeakSensor.read_state (s : LeakState) : List (String × Value) :=
  [("leak", .vBool s.leak)]

example : Dimmer.write_state ⟨false, 0⟩ "brightness" (.vInt 75)
    = (true, ⟨true, 75⟩) := by rfl
example : Dimmer.write_state ⟨false, 0⟩ "brightness" (.vStr "50")
    = (true, ⟨true, 50⟩) := by rfl
example : Dimmer.write_state ⟨true, 40⟩ "brightness" (.vInt 101)
    = (false, ⟨true, 40⟩) := by rfl
example : Thermostat.write_state ⟨"auto", 24⟩ "mode" (.vStr "HEAT")
    = (true, ⟨"heat", 24⟩) := by rfl
example : Thermostat.write_state ⟨"auto", 24⟩ "setpoint" (.vStr "15")
    = (true, ⟨"auto", 15⟩) := by rfl
example : TemperatureSensor.write_state ⟨25⟩ "temperature" (.vBool true)
    = (true, ⟨1⟩) := by rfl

/-! ## Polymorphic devices and the registry (core/gateway.py) -/

/-- A registered device: one of the seven concrete kinds, carrying its
state record (the Python object's `self.state`). -/
inductive Device where
  | lamp : LampState → Device
  | dimmer : DimmerState → Device
  | thermostat : ThermoState → Device
  | tempSensor : TempState → Device
  | humSensor : HumState → Device
  | lightSensor : LightState → Device
  | leakSensor : LeakState → Device
deriving DecidableEq, Repr

/-- Dynamic dispatch of `write_state` over the device kinds. -/
def Device.write_state : Device → String → Value → Bool × Device
  | .lamp s, a, v => let r := OnOffLamp.write_state s a v; (r.1, .lamp r.2)
  | .dimmer s, a, v => let r := Dimmer.write_state s a v; (r.1, .dimmer r.2)
  | .thermostat s, a, v =>
      let r := Thermostat.write_state s a v; (r.1, .thermostat r.2)
  | .tempSensor s, a, v =>
      let r := TemperatureSensor.write_state s a v; (r.1, .tempSensor r.2)
  | .humSensor s, a, v =>
      let r := HumiditySensor.write_state s a v; (r.1, .humSensor r.2)
  | .lightSensor s, a, v =>
      let r := LightSensor.write_state s a v; (r.1, .lightSensor r.2)
  | .leakSensor s, a, v =>
      let r := LeakSensor.write_state s a v; (r.1, .leakSensor r.2)

/-- Dynamic dispatch of `read_state` over the device kinds. -/
def Device.read_state : Device → List (String × Value)
  | .lamp s => OnOffLamp.read_state s
  | .dimmer s => Dimmer.read_state s
  | .thermostat s => Thermostat.read_state s
  | .tempSensor s => TemperatureSensor.read_state s
  | .humSensor s => HumiditySensor.read_state s
  | .lightSensor s => LightSensor.read_state s
  | .leakSensor s => LeakSensor.read_state s

/-- Lookup in a Python dict modelled as an insertion-ordered association
list (`d.get(k)`). -/
def alookup {β : Type} : List (String × β) → String → Option β
  | [], _ => none
  | (k', v) :: t, k => if k' = k then some v else alookup t k

/-- Python dict assignment `d[k] = v`: replaces in place when the key
exists, appends otherwise. -/
def aset {β : Type} : List (String × β) → String → β → List (String × β)
  | [], k, v => [(k, v)]
  | (k', v') :: t, k, v =>
      if k' = k then (k, v) :: t else (k', v') :: aset t k v

/-! ## Persistence store (core/persistence.py)

The durable blob is modelled at the granularity `json.load` observes:
the file may be missing, may fail to parse (a JSON decode error — an
empty file is one such case), may parse to a non-dict JSON value, or may
parse to the name → attribute-mapping dict the gateway writes. -/

/-- Attribute mapping of one device as stored in the blob. -/
abbrev Attrs := List (String × Value)

/-- The whole persisted mapping: device name → attributes. -/
abbrev BlobMap := List (String × Attrs)

/-- Content of the backing file once it exists. -/
inductive FileContent where
  | invalid : FileContent
  | nonObject : FileContent
  | object : BlobMap → FileContent
deriving DecidableEq, Repr

/-- The backing file itself, which may also be absent. -/
inductive FileState where
  | missing : FileState
  | file : FileContent → FileState
deriving DecidableEq, Repr

/-- `Persistence._ensure_file` (run by `__init__`): if the file does not
exist, create it containing the JSON dump of the empty dict. -/
def Persistence.ensure_file : FileState → FileState
  | .missing => .file (.object [])
  | fs => fs

/-- `Persistence.load_all`: `open` raises if the file is missing
(`Except.error`); `json.load` failure is caught and yields the empty
dict; a parsed non-dict also yields the empty dict. -/
def Persistence.load_all : FileState → Except Unit BlobMap
  | .missing => .error ()
  | .file .invalid => .ok []
  | .file .nonObject => .ok []
  | .file (.object m) => .ok m

/-- `Persistence.save_all`: rewrite the whole blob with the given dict. -/
def Persistence.save_all (m : BlobMap) : FileState := .file (.object m)

/-- Broadcast event dict built by `set_device_attribute`:
`\x7bevent, dev, attr, val\x7d`. -/
structure Event where
  event : String
  dev : String
  attr : String
  val : Value
deriving DecidableEq, Repr

/-- Everything observable about one `set_device_attribute` call: the
returned pair, the updated registry and file, the blobs passed to
`save_all`, the messages handed to the broadcaster, and the subset of
those that the broadcaster processed without raising. -/
structure SetOutcome where
  ok : Bool
  err : Option String
  devices : List (String × Device)
  file : FileState
  saves : List BlobMap
  broadcastAttempts : List Event
  broadcastDelivered : List Event
deriving DecidableEq, Repr

/-- `MatterGateway._persist_device_state`: read the whole blob, replace
this device's entry with its full current state, write the blob back.
Returns the new file state plus the list of save operations performed. -/
def persist_device_state (devices : List (String × Device)) (file : FileState)
    (name : String) : Except Unit (FileState × List BlobMap) :=
  match Persistence.load_all file with
  | .error e => .error e
  | .ok all_data =>
      match alookup devices name with
      | none => .ok (file, [])
      | some device =>
          .ok (Persistence.save_all (aset all_data name device.read_state),
               [aset all_data name device.read_state])

/-- `MatterGateway.set_device_attribute`. The broadcaster is modelled by
two booleans: `brConfigured` (a callback is attached) and `brRaises`
(that callback raises when invoked — the `except: pass` swallows it).
Exceptions escaping the call itself surface as `Except.error` (in the
source only the persistence-file `open` can do so). -/
def set_device_attribute (devices : List (String × Device)) (file : FileState)
    (brConfigured brRaises : Bool) (name attr : String) (value : Value) :
    Except Unit SetOutcome :=
  match alookup devices name with
  | none => .ok ⟨false, some "device_not_found", devices, file, [], [], []⟩
  | some device =>
      if (device.write_state attr value).1 = false then
        .ok ⟨false, some "invalid_attribute_or_value",
             aset devices name (device.write_state attr value).2,
             file, [], [], []⟩
      else
        match persist_device_state
            (aset devices name (device.write_state attr value).2) file name with
        | .error e => .error e
        | .ok (file', saves) =>
            if brConfigured then
              .ok ⟨true, none,
                   aset devices name (device.write_state attr value).2,
                   file', saves, [⟨"update", name, attr, value⟩],
                   if brRaises then [] else [⟨"update", name, attr, value⟩]⟩
            else
              .ok ⟨true, none,
                   aset devices name (device.write_state attr value).2,
                   file', saves, [], []⟩

example :
    set_device_attribute [("Lamp", .lamp ⟨false⟩)] (.file (.object []))
      true false "GhostDevice" "power" (.vBool true)
    = .ok ⟨false, some "device_not_found", [("Lamp", .lamp ⟨false⟩)],
           .file (.object []), [], [], []⟩ := by rfl

example :
    set_device_attribute [("BedroomDimmer", .dimmer ⟨false, 0⟩)]
      (.file (.object [])) true false "BedroomDimmer" "brightness" (.vInt 75)
    = .ok ⟨true, none, [("BedroomDimmer", .dimmer ⟨true, 75⟩)],
           .file (.object [("BedroomDimmer",
             [("power", .vBool true), ("brightness", .vInt 75)])]),
           [[("BedroomDimmer",
             [("power", .vBool true), ("brightness", .vInt 75)])]],
           [⟨"update", "BedroomDimmer", "brightness", .vInt 75⟩],
           [⟨"update", "BedroomDimmer", "brightness", .vInt 75⟩]⟩ := by rfl

/-! ## Subscriber fan-out (api/websocket_api.py, ConnectionManager) -/

/-- A connected websocket channel, identified by a number. -/
abbrev Channel := Nat

/-- Rendering of a dynamic value inside the serialized message. -/
def Value.render : Value → String
  | .vBool b => if b then "true" else "false"
  | .vInt n => toString n
  | .vFloat q => toString q
  | .vStr s => "\"" ++ s ++ "\""
  | .vNone => "null"

/-- `json.dumps` of an update event, computed once per broadcast. -/
def jsonDumps (e : Event) : String :=
  "\x7b\"event\": \"" ++ e.event ++ "\", \"dev\": \"" ++ e.dev ++
    "\", \"attr\": \"" ++ e.attr ++ "\", \"val\": " ++ e.val.render ++ "\x7d"

/-- Observable outcome of one `ConnectionManager.broadcast` call: the
deliveries that succeeded (channel, payload) in pass order, and the
membership set afterwards. -/
structure BroadcastOutcome where
  sent : List (Channel × String)
  active : List Channel
deriving DecidableEq, Repr

/-- `ConnectionManager.broadcast`: serialize once; iterate over a snapshot
`list(self.active)` attempting `send_text` on every channel (`ok ws` says
whether that delivery succeeds), collecting failures in `to_remove`; only
after the pass, remove the failed channels from the membership set. -/
def ConnectionManager.broadcast (active : List Channel) (ok : Channel → Bool)
    (message : Event) : BroadcastOutcome :=
  let data := jsonDumps message
  let pass := active.foldl
    (fun (acc : List (Channel × String) × List Channel) ws =>
      if ok ws then (acc.1 ++ [(ws, data)], acc.2) else (acc.1, acc.2 ++ [ws]))
    ([], [])
  ⟨pass.1, pass.2.foldl List.erase active⟩

/-! ## Upstream request client (core/larnitech_client.py) -/

/-- Default upstream endpoint (`LARNITECH_URL` with its default value). -/
def LARNITECH_URL : String := "https://1876d100.in.larnitech.com:8443/api"

/-- Default per-attempt timeout (`LARNITECH_TIMEOUT` default). -/
def REQUEST_TIMEOUT : Nat := 5

/-- Default attempt budget (`LARNITECH_RETRIES` default). -/
def MAX_RETRIES : Nat := 3

/-- Observable trace of one `_request` call: the URL of every attempt in
order, the sleeps performed between failed attempts, and the 1-based
index of the successful attempt (`none` when the budget is exhausted and
the call returns `None`). -/
structure RequestOutcome where
  urls : List String
  sleeps : List Rat
  success : Option Nat
deriving DecidableEq, Repr

/-- Body of the retry loop `for attempt in range(1, MAX_RETRIES + 1)`:
`fails n` says whether attempt `n` raises `requests.RequestException`;
on failure with attempts remaining, sleep `1.5 * attempt` and continue. -/
def requestGo (fails : Nat → Bool) (maxRetries attempt fuel : Nat) :
    RequestOutcome :=
  match fuel with
  | 0 => ⟨[], [], none⟩
  | fuel' + 1 =>
      if fails attempt then
        if attempt < maxRetries then
          ⟨LARNITECH_URL :: (requestGo fails maxRetries (attempt + 1) fuel').urls,
           (3 / 2 : Rat) * (attempt : Rat)
             :: (requestGo fails maxRetries (attempt + 1) fuel').sleeps,
           (requestGo fails maxRetries (attempt + 1) fuel').success⟩
        else ⟨[LARNITECH_URL], [], none⟩
      else ⟨[LARNITECH_URL], [], some attempt⟩

/-- `_request`: bounded retry loop against the single configured URL;
returns `None` (here `success = none`) after the last failed attempt. -/
def larnitechRequest (maxRetries : Nat) (fails : Nat → Bool) : RequestOutcome :=
  requestGo fails maxRetries 1 maxRetries

/-- `list_devices`: `None` when `_request` exhausted its budget or the
response body fails to parse as JSON (`body = none`), the data
otherwise. -/
def list_devices (maxRetries : Nat) (fails : Nat → Bool)
    (body : Option (List Value)) : Option (List Value) :=
  match (larnitechRequest maxRetries fails).success with
  | none => none
  | some _ => body

/-- `get_device_state`: same failure shape as `list_devices`. -/
def get_device_state (maxRetries : Nat) (fails : Nat → Bool)
    (body : Option Attrs) : Option Attrs :=
  match (larnitechRequest maxRetries fails).success with
  | none => none
  | some _ => body

/-- `set_device_state`: `False` on exhausted budget or unparseable body;
otherwise `data.get("result", True)` (`body = some none` models a parsed
body without a `result` key). -/
def set_device_state (maxRetries : Nat) (fails : Nat → Bool)
    (body : Option (Option Bool)) : Bool :=
  match (larnitechRequest maxRetries fails).success with
  | none => false
  | some _ =>
      match body with
      | none => false
      | some r => r.getD true

example : larnitechRequest 3 (fun _ => true)
    = ⟨[LARNITECH_URL, LARNITECH_URL, LARNITECH_URL],
       [(3 / 2 : Rat) * 1, (3 / 2 : Rat) * 2], none⟩ := by rfl
example : larnitechRequest 3 (fun n => n = 1)
    = ⟨[LARNITECH_URL, LARNITECH_URL], [(3 / 2 : Rat) * 1], some 2⟩ := by rfl

/-! ## Heap model of dict aliasing (for the read-state copy contract)

`read_state` implementations differ: `Dimmer.read_state` (and every other
kind) returns `dict(self.state)`, a fresh dict; `OnOffLamp.read_state`
returns `self.state` itself. To express what a caller's mutation of the
returned dict does to the device, dicts live in an explicit heap and the
device holds a reference. -/

/-- A Python dict value. -/
abbrev PyDict := List (String × Value)

/-- Heap of allocated dicts; a reference is an index into `cells`. -/
structure Heap where
  cells : List PyDict
deriving DecidableEq, Repr

/-- Dereference (out-of-range reads give the empty dict; never reached
under the theorems' hypotheses). -/
def Heap.get (h : Heap) (r : Nat) : PyDict := (h.cells.get? r).getD []

/-- Overwrite the dict a reference points to. -/
def Heap.set (h : Heap) (r : Nat) (d : PyDict) : Heap := ⟨h.cells.set r d⟩

/-- Allocate a fresh dict, returning its reference. -/
def Heap.alloc (h : Heap) (d : PyDict) : Nat × Heap :=
  (h.cells.length, ⟨h.cells ++ [d]⟩)

/-- A caller mutating one key of the dict behind a reference
(`returned[k] = v`). -/
def Heap.mutate (h : Heap) (r : Nat) (k : String) (v : Value) : Heap :=
  h.set r (aset (h.get r) k v)

/-- `OnOffLamp.read_state` at heap level: `return self.state` — the
device's own reference is handed to the caller, no allocation. -/
def OnOffLamp.read_state_ref (h : Heap) (r : Nat) : Nat × Heap := (r, h)

/-- `Dimmer.read_state` at heap level: `return dict(self.state)` — a fresh
dict holding a copy of the current contents. -/
def Dimmer.read_state_ref (h : Heap) (r : Nat) : Nat × Heap :=
  h.alloc (h.get r)

/-! ## Helper lemmas -/

theorem alookup_aset_self {β : Type} (l : List (String × β)) (k : String)
    (v : β) : alookup (aset l k v) k = some v := by
  induction l with
  | nil => simp [aset, alookup]
  | cons p t ih =>
      by_cases h : p.1 = k
      · simp [aset, alookup, h]
      · simp [aset, alookup, h, ih]

theorem alookup_aset_ne {β : Type} (l : List (String × β)) (k k' : String)
    (v : β) (h : k' ≠ k) : alookup (aset l k v) k' = alookup l k' := by
  induction l with
  | nil => simp [aset, alookup, Ne.symm h]
  | cons p t ih =>
      by_cases hp : p.1 = k
      · simp [aset, alookup, hp, Ne.symm h]
      · simp [aset, alookup, hp, ih]

theorem lamp_write_fail (s : LampState) (a : String) (v : Value) :
    (OnOffLamp.write_state s a v).1 = false →
    (OnOffLamp.write_state s a v).2 = s := by
  cases v <;>
    simp only [OnOffLamp.write_state, pyInt] <;>
    split_ifs <;>
    (try split) <;>
    (try split_ifs) <;>
    simp

theorem dimmer_write_fail (s : DimmerState) (a : String) (v : Value) :
    (Dimmer.write_state s a v).1 = false →
    (Dimmer.write_state s a v).2 = s := by
  cases v <;>
    simp only [Dimmer.write_state, pyInt] <;>
    split_ifs <;>
    (try split) <;>
    (try split_ifs) <;>
    simp

theorem thermostat_write_fail (s : ThermoState) (a : String) (v : Value) :
    (Thermostat.write_state s a v).1 = false →
    (Thermostat.write_state s a v).2 = s := by
  cases v <;>
    simp only [Thermostat.write_state, pyInt] <;>
    split_ifs <;>
    (try split) <;>
    (try split_ifs) <;>
    simp

theorem temp_write_fail (s : TempState) (a : String) (v : Value) :
    (TemperatureSensor.write_state s a v).1 = false →
    (TemperatureSensor.write_state s a v).2 = s := by
  cases v <;>
    simp only [TemperatureSensor.write_state, pyInt] <;>
    split_ifs <;>
    (try split) <;>
    (try split_ifs) <;>
    simp

theorem hum_write_fail (s : HumState) (a : String) (v : Value) :
    (HumiditySensor.write_state s a v).1 = false →
    (HumiditySensor.write_state s a v).2 = s := by
  cases v <;>
    simp only [HumiditySensor.write_state, pyInt] <;>
    split_ifs <;>
    (try split) <;>
    (try split_ifs) <;>
    simp

theorem light_write_fail (s : LightState) (a : String) (v : Value) :
    (LightSensor.write_state s a v).1 = false →
    (LightSensor.write_state s a v).2 = s := by
  cases v <;>
    simp only [LightSensor.write_state, pyInt] <;>
    split_ifs <;>
    (try split) <;>
    (try split_ifs) <;>
    simp

theorem leak_write_fail (s : LeakState) (a : String) (v : Value) :
    (LeakSensor.write_state s a v).1 = false →
    (LeakSensor.write_state s a v).2 = s := by
  cases v <;>
    simp only [LeakSensor.write_state, pyInt] <;>
    split_ifs <;>
    (try split) <;>
    (try split_ifs) <;>
    simp

/-- Attribute names each device kind handles in its `write_state`. -/
def Device.knownAttrs : Device → List String
  | .lamp _ => ["power"]
  | .dimmer _ => ["power", "brightness"]
  | .thermostat _ => ["mode", "setpoint"]
  | .tempSensor _ => ["temperature"]
  | .humSensor _ => ["humidity"]
  | .lightSensor _ => ["lux"]
  | .leakSensor _ => ["leak"]

theorem device_write_fail (d : Device) (a : String) (v : Value) :
    (d.write_state a v).1 = false → (d.write_state a v).2 = d := by
  cases d <;> simp only [Device.write_state] <;> intro h
  · rw [lamp_write_fail _ _ _ h]
  · rw [dimmer_write_fail _ _ _ h]
  · rw [thermostat_write_fail _ _ _ h]
  · rw [temp_write_fail _ _ _ h]
  · rw [hum_write_fail _ _ _ h]
  · rw [light_write_fail _ _ _ h]
  · rw [leak_write_fail _ _ _ h]

theorem device_write_unknown (d : Device) (a : String) (v : Value)
    (h : a ∉ d.knownAttrs) : (d.write_state a v).1 = false := by
  cases d <;> simp [Device.knownAttrs] at h <;>
    simp [Device.write_state, OnOffLamp.write_state, Dimmer.write_state,
      Thermostat.write_state, TemperatureSensor.write_state,
      HumiditySensor.write_state, LightSensor.write_state,
      LeakSensor.write_state, h]

/-! ## Claim C1 -/

/-- The dimmer kind's type/range rule as the specification's table states
it (§4.1): `power` takes a boolean, `brightness` an integer in [0, 100].
Stated from the spec's words, to compare against `Dimmer.write_state`. -/
def specValidDimmer (attr : String) (v : Value) : Prop :=
  (attr = "power" ∧ ∃ b, v = Value.vBool b) ∨
  (attr = "brightness" ∧ ∃ n : Int, v = Value.vInt n ∧ 0 ≤ n ∧ n ≤ 100)

/-- Claim C1, counterexample. The claim demands that a write of a
wrong-typed value fail and leave the state unchanged, for every device
kind; the dimmer instance of that demand is false: the string "50" is not
a correctly-typed brightness per the spec's `int[0,100]` rule, yet
`Dimmer.write_state` accepts it (the source deliberately coerces numeric
strings through `int(value)`) and mutates the state. -/
theorem c1_counterexample :
    ¬ (∀ (s : DimmerState) (a : String) (v : Value),
        ¬ specValidDimmer a v → Dimmer.write_state s a v = (false, s)) := by
  intro hclaim
  have hnv : ¬ specValidDimmer "brightness" (.vStr "50") := by
    rintro (⟨ha, _⟩ | ⟨_, n, hn, _⟩)
    · exact absurd ha (by decide)
    · simp at hn
  have h := hclaim ⟨false, 0⟩ "brightness" (.vStr "50") hnv
  rw [show Dimmer.write_state ⟨false, 0⟩ "brightness" (.vStr "50")
      = (true, ⟨true, 50⟩) from rfl] at h
  simp at h

/-- Claim C1, amended. For every device kind: a write of an in-range,
correctly-typed (canonical) value succeeds and an immediately following
read reflects it; a write of an out-of-range correctly-typed value fails
wherever the kind declares a range; a write of an unknown attribute
fails; and every failed write leaves the state exactly unchanged (no
partial application). The amendment drops only the demand that every
wrong-typed value be rejected: values convertible to the attribute's type
(numeric strings, and floats/bools where Python coercion applies) are
accepted by the code, as the counterexample shows. -/
theorem c1_device_write_contract :
    (∀ (s : LampState) (b : Bool),
      (OnOffLamp.write_state s "power" (.vBool b)).1 = true ∧
      OnOffLamp.read_state (OnOffLamp.write_state s "power" (.vBool b)).2
        = [("power", .vBool b)]) ∧
    (∀ (s : DimmerState) (b : Bool),
      (Dimmer.write_state s "power" (.vBool b)).1 = true ∧
      Dimmer.read_state (Dimmer.write_state s "power" (.vBool b)).2
        = [("power", .vBool b), ("brightness", .vInt s.brightness)]) ∧
    (∀ (s : DimmerState) (n : Int), 0 ≤ n → n ≤ 100 →
      (Dimmer.write_state s "brightness" (.vInt n)).1 = true ∧
      Dimmer.read_state (Dimmer.write_state s "brightness" (.vInt n)).2
        = [("power", .vBool (if 0 < n then true else s.power)),
           ("brightness", .vInt n)]) ∧
    (∀ (s : ThermoState) (m : String),
      strLower m = "heat" ∨ strLower m = "cool" ∨ strLower m = "auto" →
      (Thermostat.write_state s "mode" (.vStr m)).1 = true ∧
      Thermostat.read_state (Thermostat.write_state s "mode" (.vStr m)).2
        = [("mode", .vStr (strLower m)), ("setpoint", .vInt s.setpoint)]) ∧
    (∀ (s : ThermoState) (t : Int), 10 ≤ t → t ≤ 30 →
      (Thermostat.write_state s "setpoint" (.vInt t)).1 = true ∧
      Thermostat.read_state (Thermostat.write_state s "setpoint" (.vInt t)).2
        = [("mode", .vStr s.mode), ("setpoint", .vInt t)]) ∧
    (∀ (s : TempState) (q : Rat),
      (TemperatureSensor.write_state s "temperature" (.vFloat q)).1 = true ∧
      TemperatureSensor.read_state
          (TemperatureSensor.write_state s "temperature" (.vFloat q)).2
        = [("temperature", .vFloat q)]) ∧
    (∀ (s : HumState) (q : Rat), 0 ≤ q → q ≤ 100 →
      (HumiditySensor.write_state s "humidity" (.vFloat q)).1 = true ∧
      HumiditySensor.read_state
          (HumiditySensor.write_state s "humidity" (.vFloat q)).2
        = [("humidity", .vFloat q)]) ∧
    (∀ (s : LightState) (q : Rat), 0 ≤ q → q ≤ 10000 →
      (LightSensor.write_state s "lux" (.vFloat q)).1 = true ∧
      LightSensor.read_state (LightSensor.write_state s "lux" (.vFloat q)).2
        = [("lux", .vFloat q)]) ∧
    (∀ (s : LeakState) (b : Bool),
      (LeakSensor.write_state s "leak" (.vBool b)).1 = true ∧
      LeakSensor.read_state (LeakSensor.write_state s "leak" (.vBool b)).2
        = [("leak", .vBool b)]) ∧
    (∀ (s : DimmerState) (n : Int), n < 0 ∨ 100 < n →
      Dimmer.write_state s "brightness" (.vInt n) = (false, s)) ∧
    (∀ (s : ThermoState) (t : Int), t < 10 ∨ 30 < t →
      Thermostat.write_state s "setpoint" (.vInt t) = (false, s)) ∧
    (∀ (s : ThermoState) (m : String),
      ¬ (strLower m = "heat" ∨ strLower m = "cool" ∨ strLower m = "auto") →
      Thermostat.write_state s "mode" (.vStr m) = (false, s)) ∧
    (∀ (s : HumState) (q : Rat), q < 0 ∨ 100 < q →
      HumiditySensor.write_state s "humidity" (.vFloat q) = (false, s)) ∧
    (∀ (s : LightState) (q : Rat), q < 0 ∨ 10000 < q →
      LightSensor.write_state s "lux" (.vFloat q) = (false, s)) ∧
    (∀ (d : Device) (a : String) (v : Value), a ∉ d.knownAttrs →
      (d.write_state a v).1 = false) ∧
    (∀ (d : Device) (a : String) (v : Value),
      (d.write_state a v).1 = false → (d.write_state a v).2 = d) := by
  refine ⟨?_, ?_, ?_, ?_, ?_, ?_, ?_, ?_, ?_, ?_, ?_, ?_, ?_, ?_, ?_, ?_⟩
  · intro s b
    exact ⟨rfl, rfl⟩
  · intro s b
    exact ⟨rfl, rfl⟩
  · intro s n h1 h2
    have hin : 0 ≤ n ∧ n ≤ 100 := ⟨h1, h2⟩
    constructor <;>
      simp [Dimmer.write_state, Dimmer.read_state, pyInt, hin]
  · intro s m hm
    rcases hm with h | h | h <;>
      constructor <;>
      simp [Thermostat.write_state, Thermostat.read_state, h]
  · intro s t h1 h2
    have hin : 10 ≤ t ∧ t ≤ 30 := ⟨h1, h2⟩
    constructor <;>
      simp [Thermostat.write_state, Thermostat.read_state, pyInt, hin]
  · intro s q
    exact ⟨rfl, rfl⟩
  · intro s q h1 h2
    have hin : 0 ≤ q ∧ q ≤ 100 := ⟨h1, h2⟩
    constructor <;>
      simp [HumiditySensor.write_state, HumiditySensor.read_state, pyFloat, hin]
  · intro s q h1 h2
    have hin : 0 ≤ q ∧ q ≤ 10000 := ⟨h1, h2⟩
    constructor <;>
      simp [LightSensor.write_state, LightSensor.read_state, pyFloat, hin]
  · intro s b
    exact ⟨rfl, rfl⟩
  · intro s n hn
    have hout : ¬ (0 ≤ n ∧ n ≤ 100) := by omega
    simp [Dimmer.write_state, pyInt, hout]
  · intro s t ht
    have hout : ¬ (10 ≤ t ∧ t ≤ 30) := by omega
    simp [Thermostat.write_state, pyInt, hout]
  · intro s m hm
    simp [Thermostat.write_state, hm]
  · intro s q hq
    have hout : ¬ (0 ≤ q ∧ q ≤ 100) := by
      rcases hq with h | h <;> rintro ⟨h1, h2⟩ <;> linarith
    simp [HumiditySensor.write_state, pyFloat, hout]
  · intro s q hq
    have hout : ¬ (0 ≤ q ∧ q ≤ 10000) := by
      rcases hq with h | h <;> rintro ⟨h1, h2⟩ <;> linarith
    simp [LightSensor.write_state, pyFloat, hout]
  · exact device_write_unknown
  · exact device_write_fail

/-- Witness for the amended C1 theorem: the dimmer accepts brightness 75
from the all-off default state, and the following read shows it. -/
theorem c1_device_write_contract_witness :
    (Dimmer.write_state ⟨false, 0⟩ "brightness" (.vInt 75)).1 = true ∧
    Dimmer.read_state (Dimmer.write_state ⟨false, 0⟩ "brightness" (.vInt 75)).2
      = [("power", .vBool (if 0 < (75 : Int) then true else false)),
         ("brightness", .vInt 75)] :=
  c1_device_write_contract.2.2.1 ⟨false, 0⟩ 75 (by norm_num) (by norm_num)

/-! ## Claims C2, C3, C4 -/

theorem persist_device_state_eq (devices : List (String × Device))
    (file : FileState) (name : String) (d : Device) (m0 : BlobMap)
    (hload : Persistence.load_all file = .ok m0)
    (hdev : alookup devices name = some d) :
    persist_device_state devices file name
      = .ok (Persistence.save_all (aset m0 name d.read_state),
             [aset m0 name d.read_state]) := by
  unfold persist_device_state
  rw [hload, hdev]

/-- Claim C2: when the registry has no device under `name`,
`set_device_attribute` returns `(False, "device_not_found")` and has no
effect at all: the device map and file are returned unchanged, no blob is
saved, and the broadcaster is never invoked. -/
theorem c2_unknown_device_no_effect (devices : List (String × Device))
    (file : FileState) (brConfigured brRaises : Bool) (name attr : String)
    (v : Value) (h : alookup devices name = none) :
    set_device_attribute devices file brConfigured brRaises name attr v
      = .ok ⟨false, some "device_not_found", devices, file, [], [], []⟩ := by
  unfold set_device_attribute
  rw [h]

/-- Witness for C2 at a concrete registry and the spec's GhostDevice
call. -/
theorem c2_unknown_device_no_effect_witness :
    alookup [("Lamp", Device.lamp ⟨false⟩)] "GhostDevice" = none ∧
    set_device_attribute [("Lamp", Device.lamp ⟨false⟩)] (.file (.object []))
        true false "GhostDevice" "power" (.vBool true)
      = .ok ⟨false, some "device_not_found", [("Lamp", Device.lamp ⟨false⟩)],
             .file (.object []), [], [], []⟩ :=
  ⟨by rfl, c2_unknown_device_no_effect _ _ _ _ _ _ _ (by rfl)⟩

/-- Claim C3: a successful `set_device_attribute` is reflected by a
subsequent `load_all` on the resulting durable file state: the blob's
entry for the device equals the registered device's full current
`read_state`. Because `load_all` is a pure function of the durable
`FileState`, the same equation is what a restarted process re-reading the
same blob observes. -/
theorem c3_persist_roundtrip (devices : List (String × Device))
    (file : FileState) (brConfigured brRaises : Bool) (name attr : String)
    (v : Value) (o : SetOutcome)
    (h : set_device_attribute devices file brConfigured brRaises name attr v
          = .ok o)
    (hok : o.ok = true) :
    ∃ (d : Device) (m : BlobMap),
      alookup o.devices name = some d ∧
      Persistence.load_all o.file = .ok m ∧
      alookup m name = some d.read_state := by
  unfold set_device_attribute at h
  cases hdev : alookup devices name with
  | none =>
      rw [hdev] at h
      dsimp only at h
      injection h with h2
      subst h2
      simp at hok
  | some device =>
      rw [hdev] at h
      dsimp only at h
      by_cases hw : (device.write_state attr v).1 = false
      · rw [if_pos hw] at h
        injection h with h2
        subst h2
        simp at hok
      · rw [if_neg hw] at h
        cases hload : Persistence.load_all file with
        | error e =>
            have hp : persist_device_state
                (aset devices name (device.write_state attr v).2) file name
                = .error e := by
              unfold persist_device_state
              rw [hload]
            rw [hp] at h
            simp at h
        | ok m0 =>
            rw [persist_device_state_eq _ _ _ _ _ hload
              (alookup_aset_self devices name (device.write_state attr v).2)]
              at h
            dsimp only at h
            cases brConfigured with
            | false =>
                rw [if_neg (show ¬(false = true) by simp)] at h
                injection h with h2
                subst h2
                exact ⟨(device.write_state attr v).2,
                  aset m0 name ((device.write_state attr v).2).read_state,
                  alookup_aset_self _ _ _, rfl, alookup_aset_self _ _ _⟩
            | true =>
                rw [if_pos rfl] at h
                injection h with h2
                subst h2
                exact ⟨(device.write_state attr v).2,
                  aset m0 name ((device.write_state attr v).2).read_state,
                  alookup_aset_self _ _ _, rfl, alookup_aset_self _ _ _⟩

/-- Witness for C3: the spec's concrete scenario — a freshly registered
BedroomDimmer receives brightness 75; the persisted blob's entry equals
the device's full state. -/
theorem c3_persist_roundtrip_witness :
    ∃ (d : Device) (m : BlobMap),
      alookup [("BedroomDimmer", Device.dimmer ⟨true, 75⟩)] "BedroomDimmer"
        = some d ∧
      Persistence.load_all (.file (.object [("BedroomDimmer",
        [("power", .vBool true), ("brightness", .vInt 75)])])) = .ok m ∧
      alookup m "BedroomDimmer" = some d.read_state :=
  c3_persist_roundtrip [("BedroomDimmer", Device.dimmer ⟨false, 0⟩)]
    (.file (.object [])) true false "BedroomDimmer" "brightness" (.vInt 75)
    ⟨true, none, [("BedroomDimmer", Device.dimmer ⟨true, 75⟩)],
     .file (.object [("BedroomDimmer",
       [("power", .vBool true), ("brightness", .vInt 75)])]),
     [[("BedroomDimmer", [("power", .vBool true), ("brightness", .vInt 75)])]],
     [⟨"update", "BedroomDimmer", "brightness", .vInt 75⟩],
     [⟨"update", "BedroomDimmer", "brightness", .vInt 75⟩]⟩
    (by rfl) (by rfl)

/-- Claim C4: when the device exists and its write succeeds,
`set_device_attribute` returns success with no error for both a raising
and a non-raising broadcaster: the exception is swallowed (only the
delivered list differs), and both the registry entry and the blob saved
before the broadcast attempt hold the new state — nothing is rolled
back. -/
theorem c4_broadcaster_failure_swallowed (devices : List (String × Device))
    (file : FileState) (name attr : String) (v : Value) (d : Device)
    (m0 : BlobMap)
    (hdev : alookup devices name = some d)
    (hw : (d.write_state attr v).1 = true)
    (hload : Persistence.load_all file = .ok m0) :
    ∀ brRaises : Bool,
      set_device_attribute devices file true brRaises name attr v
        = .ok ⟨true, none,
               aset devices name (d.write_state attr v).2,
               Persistence.save_all
                 (aset m0 name ((d.write_state attr v).2).read_state),
               [aset m0 name ((d.write_state attr v).2).read_state],
               [⟨"update", name, attr, v⟩],
               if brRaises then [] else [⟨"update", name, attr, v⟩]⟩ := by
  intro brRaises
  unfold set_device_attribute
  rw [hdev]
  dsimp only
  rw [hw, if_neg (show ¬(true = false) by simp)]
  rw [persist_device_state_eq _ _ _ _ _ hload
    (alookup_aset_self devices name (d.write_state attr v).2)]
  rfl

/-- Witness for C4: a lamp receives `power := true` while the configured
broadcaster raises; the call still reports success and the new state is
both registered and persisted. -/
theorem c4_broadcaster_failure_swallowed_witness :
    set_device_attribute [("Lamp", Device.lamp ⟨false⟩)] (.file (.object []))
        true true "Lamp" "power" (.vBool true)
      = .ok ⟨true, none, [("Lamp", Device.lamp ⟨true⟩)],
             .file (.object [("Lamp", [("power", .vBool true)])]),
             [[("Lamp", [("power", .vBool true)])]],
             [⟨"update", "Lamp", "power", .vBool true⟩], []⟩ :=
  c4_broadcaster_failure_swallowed [("Lamp", Device.lamp ⟨false⟩)]
    (.file (.object [])) "Lamp" "power" (.vBool true) (Device.lamp ⟨false⟩)
    [] (by rfl) (by rfl) (by rfl) true

/-! ## Claims C5, C6, C10 -/

/-- Claim C5: for every integer brightness `b` with `0 < b ≤ 100`, the
dimmer's `write_state("brightness", b)` succeeds and the following
`read_state` shows `power = true` and `brightness = b` (brightness > 0
auto-turns the dimmer on). -/
theorem c5_brightness_implies_power (s : DimmerState) (b : Int)
    (h1 : 0 < b) (h2 : b ≤ 100) :
    (Dimmer.write_state s "brightness" (.vInt b)).1 = true ∧
    Dimmer.read_state (Dimmer.write_state s "brightness" (.vInt b)).2
      = [("power", .vBool true), ("brightness", .vInt b)] := by
  have hin : 0 ≤ b ∧ b ≤ 100 := ⟨le_of_lt h1, h2⟩
  constructor <;>
    simp [Dimmer.write_state, Dimmer.read_state, pyInt, hin, h1]

/-- Witness for C5 at the spec's concrete brightness 75. -/
theorem c5_brightness_implies_power_witness :
    (Dimmer.write_state ⟨false, 0⟩ "brightness" (.vInt 75)).1 = true ∧
    Dimmer.read_state (Dimmer.write_state ⟨false, 0⟩ "brightness" (.vInt 75)).2
      = [("power", .vBool true), ("brightness", .vInt 75)] :=
  c5_brightness_implies_power ⟨false, 0⟩ 75 (by norm_num) (by norm_num)

/-- Claim C6: through the class's own lifecycle (`__init__` runs
`_ensure_file`, so the file exists whenever `load_all` opens it),
`load_all` returns the empty mapping when the blob was missing (the
constructor replaced it with an empty-dict file), when it fails to parse
as JSON (which covers an empty file), and when it parses to a non-object;
it returns the stored mapping otherwise, and in every case it returns
normally rather than raising. -/
theorem c6_load_all_corruption_safe :
    (Persistence.load_all (Persistence.ensure_file .missing) = .ok []) ∧
    (Persistence.load_all (Persistence.ensure_file (.file .invalid))
      = .ok []) ∧
    (Persistence.load_all (Persistence.ensure_file (.file .nonObject))
      = .ok []) ∧
    (∀ m : BlobMap,
      Persistence.load_all (Persistence.ensure_file (.file (.object m)))
        = .ok m) ∧
    (∀ fs : FileState, ∃ m : BlobMap,
      Persistence.load_all (Persistence.ensure_file fs) = .ok m) := by
  refine ⟨rfl, rfl, rfl, fun m => rfl, fun fs => ?_⟩
  cases fs with
  | missing => exact ⟨[], rfl⟩
  | file c => cases c with
    | invalid => exact ⟨[], rfl⟩
    | nonObject => exact ⟨[], rfl⟩
    | object m => exact ⟨m, rfl⟩

/-- Claim C10: the dimmer's `power` attribute accepts exactly booleans;
writing `power := false` always succeeds and keeps the stored brightness,
and any accepted `power` write changes nothing except `power`. -/
theorem c10_power_off_keeps_brightness (s : DimmerState) :
    (Dimmer.write_state s "power" (.vBool false)
      = (true, { s with power := false })) ∧
    (∀ v : Value, (Dimmer.write_state s "power" v).1 = true →
      ((Dimmer.write_state s "power" v).2).brightness = s.brightness) := by
  constructor
  · rfl
  · intro v hv
    cases v <;> simp [Dimmer.write_state] at hv ⊢

/-- Witness for C10: turning off a dimmer at brightness 75 keeps 75. -/
theorem c10_power_off_keeps_brightness_witness :
    Dimmer.write_state ⟨true, 75⟩ "power" (.vBool false)
      = (true, { power := false, brightness := 75 }) :=
  (c10_power_off_keeps_brightness ⟨true, 75⟩).1

/-! ## Claim C7 -/

theorem broadcast_pass_spec (ok : Channel → Bool) (data : String) :
    ∀ (l : List Channel) (acc : List (Channel × String) × List Channel),
      l.foldl
        (fun (acc : List (Channel × String) × List Channel) ws =>
          if ok ws then (acc.1 ++ [(ws, data)], acc.2)
          else (acc.1, acc.2 ++ [ws])) acc
        = (acc.1 ++ (l.filter ok).map (fun c => (c, data)),
           acc.2 ++ l.filter (fun c => !ok c)) := by
  intro l
  induction l with
  | nil => intro acc; simp
  | cons c t ih =>
      intro acc
      by_cases hc : ok c <;> simp [hc, ih, List.filter_cons]

/-- Claim C7: one `broadcast` serializes the message once and attempts
delivery to every currently-registered channel: the deliveries are
exactly one copy of the single serialization to each channel whose send
succeeds (so one broken channel never blocks the rest), each such channel
receives it exactly once, and the membership set afterwards — rebuilt
only after the enumeration pass over the snapshot finishes — is the
original set minus exactly the channels whose delivery failed. -/
theorem c7_broadcast_fanout (active : List Channel) (ok : Channel → Bool)
    (message : Event) (hnd : active.Nodup) :
    (ConnectionManager.broadcast active ok message).sent
      = (active.filter ok).map (fun c => (c, jsonDumps message)) ∧
    (ConnectionManager.broadcast active ok message).active
      = active.filter ok ∧
    (∀ c ∈ active, ok c = true →
      ((ConnectionManager.broadcast active ok message).sent.map
        Prod.fst).count c = 1) ∧
    (∀ c ∈ active, ok c = false →
      c ∉ (ConnectionManager.broadcast active ok message).active) := by
  have hpass := broadcast_pass_spec ok (jsonDumps message) active ([], [])
  have hsent : (ConnectionManager.broadcast active ok message).sent
      = (active.filter ok).map (fun c => (c, jsonDumps message)) := by
    simp only [ConnectionManager.broadcast]
    rw [hpass]
    simp
  have hactive : (ConnectionManager.broadcast active ok message).active
      = active.filter ok := by
    simp only [ConnectionManager.broadcast]
    rw [hpass]
    dsimp only
    rw [List.nil_append, ← List.diff_eq_foldl, hnd.diff_eq_filter]
    refine List.filter_congr ?_
    intro c hc
    by_cases hok : ok c
    · simp [hok, List.mem_filter]
    · simp [hok, List.mem_filter, hc]
  refine ⟨hsent, hactive, ?_, ?_⟩
  · intro c hc hok
    rw [hsent]
    have hmap : ((active.filter ok).map
        (fun c => (c, jsonDumps message))).map Prod.fst = active.filter ok := by
      rw [List.map_map]
      have hcomp : (Prod.fst ∘ fun c : Channel => (c, jsonDumps message))
          = id := by
        funext c
        rfl
      rw [hcomp, List.map_id]
    rw [hmap]
    exact List.count_eq_one_of_mem (hnd.filter _)
      (List.mem_filter.mpr ⟨hc, hok⟩)
  · intro c hc hok
    rw [hactive]
    intro hmem
    rcases List.mem_filter.mp hmem with ⟨_, hok'⟩
    rw [hok] at hok'
    exact Bool.false_ne_true hok'

/-- Witness for C7: two subscribers, channel 1 already broken — channel 0
still receives the single serialized copy and channel 1 is dropped. -/
theorem c7_broadcast_fanout_witness :
    (ConnectionManager.broadcast [0, 1] (fun c => c == 0)
        ⟨"update", "BedroomDimmer", "brightness", .vInt 75⟩).sent
      = (([0, 1] : List Channel).filter (fun c => c == 0)).map
          (fun c => (c, jsonDumps
            ⟨"update", "BedroomDimmer", "brightness", .vInt 75⟩)) ∧
    (ConnectionManager.broadcast [0, 1] (fun c => c == 0)
        ⟨"update", "BedroomDimmer", "brightness", .vInt 75⟩).active
      = ([0, 1] : List Channel).filter (fun c => c == 0) :=
  ⟨(c7_broadcast_fanout [0, 1] (fun c => c == 0)
      ⟨"update", "BedroomDimmer", "brightness", .vInt 75⟩ (by decide)).1,
   (c7_broadcast_fanout [0, 1] (fun c => c == 0)
      ⟨"update", "BedroomDimmer", "brightness", .vInt 75⟩ (by decide)).2.1⟩

/-! ## Claim C8 -/

theorem requestGo_urls_length (fails : Nat → Bool) :
    ∀ (fuel maxRetries attempt : Nat),
      (requestGo fails maxRetries attempt fuel).urls.length ≤ fuel := by
  intro fuel
  induction fuel with
  | zero => intro m a; simp [requestGo]
  | succ f ih =>
      intro m a
      unfold requestGo
      split_ifs with h1 h2
      · simpa using Nat.succ_le_succ (ih m (a + 1))
      · simp
      · simp

theorem requestGo_urls_all (fails : Nat → Bool) :
    ∀ (fuel maxRetries attempt : Nat) (u : String),
      u ∈ (requestGo fails maxRetries attempt fuel).urls →
      u = LARNITECH_URL := by
  intro fuel
  induction fuel with
  | zero => intro m a u h; simp [requestGo] at h
  | succ f ih =>
      intro m a u h
      unfold requestGo at h
      split_ifs at h with h1 h2
      · rcases List.mem_cons.mp h with h | h
        · exact h
        · exact ih m (a + 1) u h
      · simpa using h
      · simpa using h

theorem requestGo_all_fail (fails : Nat → Bool) (hf : ∀ n, fails n = true) :
    ∀ (fuel attempt maxRetries : Nat), attempt + fuel = maxRetries + 1 →
      requestGo fails maxRetries attempt fuel
        = ⟨List.replicate fuel LARNITECH_URL,
           (List.range' attempt (fuel - 1)).map
             (fun a => (3 / 2 : Rat) * (a : Rat)),
           none⟩ := by
  intro fuel
  induction fuel with
  | zero =>
      intro a m h
      simp [requestGo]
  | succ f ih =>
      intro a m h
      unfold requestGo
      rw [hf a, if_pos rfl]
      by_cases hlt : a < m
      · have hfpos : 1 ≤ f := by omega
        rw [if_pos hlt, ih (a + 1) m (by omega)]
        have hrange : List.range' a (f + 1 - 1)
            = a :: List.range' (a + 1) (f - 1) := by
          have hf1 : f + 1 - 1 = (f - 1) + 1 := by omega
          rw [hf1, List.range'_succ]
        rw [hrange]
        simp [List.replicate_succ]
      · have hf0 : f = 0 := by omega
        subst hf0
        rw [if_neg hlt]
        simp [List.replicate, List.range']

/-- The endpoint-selection behaviour claim C8 asserts, stated from the
spec's words: there are two distinct endpoints — a local one attempted
first and a remote fallback — such that any call whose first attempt
fails starts at the local endpoint and goes on to try the remote one. -/
def specLocalThenRemoteFallback : Prop :=
  ∃ localUrl remoteUrl : String, localUrl ≠ remoteUrl ∧
    ∀ (maxRetries : Nat) (fails : Nat → Bool), 2 ≤ maxRetries →
      fails 1 = true →
      (larnitechRequest maxRetries fails).urls.head? = some localUrl ∧
      remoteUrl ∈ (larnitechRequest maxRetries fails).urls

/-- Claim C8, counterexample: `_request` has no local-then-remote
endpoint selection — every attempt goes to the single configured
`LARNITECH_URL`, so no pair of distinct endpoints can describe its
traces. A run of two failing attempts shows both the first and every
subsequent URL equal. -/
theorem c8_counterexample : ¬ specLocalThenRemoteFallback := by
  rintro ⟨lu, ru, hne, hprop⟩
  obtain ⟨hhead, hmem⟩ := hprop 2 (fun _ => true) (by norm_num) rfl
  have hurls : (larnitechRequest 2 (fun _ => true)).urls
      = [LARNITECH_URL, LARNITECH_URL] := by rfl
  rw [hurls] at hhead hmem
  have hlu : lu = LARNITECH_URL := by
    simp only [List.head?_cons, Option.some.injEq] at hhead
    exact hhead.symm
  have hru : ru = LARNITECH_URL := by
    rcases List.mem_cons.mp hmem with h | h
    · exact h
    · simpa using h
  exact hne (hlu.trans hru.symm)

/-- Claim C8, amended: every upstream request-client call sends all of
its attempts to the single configured endpoint URL (there is no
local-first/remote-fallback step); each call makes at most N attempts
(configurable, default 3), sleeping `1.5 × attempt-number` between
consecutive failed attempts, and when every attempt fails it returns a
soft failure — `None` from `list_devices`/`get_device_state` and `False`
from `set_device_state` — never an unhandled fault. -/
theorem c8_bounded_retry_single_endpoint :
    MAX_RETRIES = 3 ∧
    (∀ (maxRetries : Nat) (fails : Nat → Bool),
      (larnitechRequest maxRetries fails).urls.length ≤ maxRetries) ∧
    (∀ (maxRetries : Nat) (fails : Nat → Bool) (u : String),
      u ∈ (larnitechRequest maxRetries fails).urls → u = LARNITECH_URL) ∧
    (∀ (maxRetries : Nat) (fails : Nat → Bool), (∀ n, fails n = true) →
      larnitechRequest maxRetries fails
        = ⟨List.replicate maxRetries LARNITECH_URL,
           (List.range' 1 (maxRetries - 1)).map
             (fun a => (3 / 2 : Rat) * (a : Rat)),
           none⟩) ∧
    (∀ (maxRetries : Nat) (fails : Nat → Bool), (∀ n, fails n = true) →
      (∀ body, list_devices maxRetries fails body = none) ∧
      (∀ body, get_device_state maxRetries fails body = none) ∧
      (∀ body, set_device_state maxRetries fails body = false)) := by
  refine ⟨rfl, ?_, ?_, ?_, ?_⟩
  · intro m fails
    exact requestGo_urls_length fails m m 1
  · intro m fails u hu
    exact requestGo_urls_all fails m m 1 u hu
  · intro m fails hf
    exact requestGo_all_fail fails hf m 1 m (by omega)
  · intro m fails hf
    have hall := requestGo_all_fail fails hf m 1 m (by omega)
    refine ⟨?_, ?_, ?_⟩ <;>
      intro body <;>
      simp [list_devices, get_device_state, set_device_state,
        larnitechRequest, hall]

/-- Witness for the amended C8 at the default budget of 3 with every
attempt failing: three attempts to the one URL, sleeps 1.5 and 3.0,
no success. -/
theorem c8_bounded_retry_single_endpoint_witness :
    larnitechRequest 3 (fun _ => true)
      = ⟨List.replicate 3 LARNITECH_URL,
         (List.range' 1 2).map (fun a => (3 / 2 : Rat) * (a : Rat)),
         none⟩ :=
  c8_bounded_retry_single_endpoint.2.2.2.1 3 (fun _ => true) (fun _ => rfl)

/-! ## Claim C9 -/

/-- Claim C9, counterexample: `OnOffLamp.read_state` returns `self.state`
itself, not a copy, so the claim that mutating the returned mapping never
changes later reads is false. Concretely: a lamp whose state dict (cell
0) is `\x7bpower: false\x7d` hands that same reference to the caller;
after the caller sets `power := true` on it, the device's own next read
observes `power = true`. -/
theorem c9_counterexample :
    (OnOffLamp.read_state_ref ⟨[[("power", Value.vBool false)]]⟩ 0).1 = 0 ∧
    Heap.get
      (Heap.mutate (OnOffLamp.read_state_ref
          ⟨[[("power", Value.vBool false)]]⟩ 0).2
        (OnOffLamp.read_state_ref ⟨[[("power", Value.vBool false)]]⟩ 0).1
        "power" (Value.vBool true))
      0 = [("power", Value.vBool true)] := by
  constructor <;> rfl

/-- Claim C9, amended: `Dimmer.read_state` (like every kind except the
on/off lamp, all of which return `dict(self.state)`) hands the caller a
freshly allocated copy whose contents equal the current state; mutating
that copy leaves the state the device reads afterwards unchanged.
`OnOffLamp.read_state` instead returns the internal dict itself (the
same reference), so its callers share the device's mutable state. -/
theorem c9_read_state_independence :
    (∀ (h : Heap) (r : Nat), r < h.cells.length →
      ∀ (k : String) (v : Value),
        Heap.get
          (Heap.mutate (Dimmer.read_state_ref h r).2
            (Dimmer.read_state_ref h r).1 k v) r
          = Heap.get h r) ∧
    (∀ (h : Heap) (r : Nat),
      Heap.get (Dimmer.read_state_ref h r).2 (Dimmer.read_state_ref h r).1
        = Heap.get h r) ∧
    (∀ (h : Heap) (r : Nat), (OnOffLamp.read_state_ref h r).1 = r) := by
  refine ⟨?_, ?_, ?_⟩
  · intro h r hr k v
    simp only [Dimmer.read_state_ref, Heap.alloc, Heap.mutate, Heap.set,
      Heap.get]
    rw [List.get?_set_ne _ _ (by omega : h.cells.length ≠ r),
      List.get?_append hr]
  · intro h r
    simp only [Dimmer.read_state_ref, Heap.alloc, Heap.get]
    rw [List.get?_concat_length]
    rfl
  · intro h r
    rfl

/-- Witness for the amended C9: a dimmer dict at cell 0; the caller
mutates the returned copy, and the device's stored dict is untouched. -/
theorem c9_read_state_independence_witness :
    Heap.get
      (Heap.mutate
        (Dimmer.read_state_ref
          ⟨[[("power", Value.vBool false), ("brightness", Value.vInt 0)]]⟩ 0).2
        (Dimmer.read_state_ref
          ⟨[[("power", Value.vBool false), ("brightness", Value.vInt 0)]]⟩ 0).1
        "power" (Value.vBool true))
      0
    = Heap.get ⟨[[("power", Value.vBool false), ("brightness", Value.vInt 0)]]⟩
        0 :=
  c9_read_state_independence.1
    ⟨[[("power", Value.vBool false), ("brightness", Value.vInt 0)]]⟩ 0
    (by norm_num) "power" (Value.vBool true)
